import Mathlib

/-!
Shallow embedding of the output handler of
`libparistraceroute/algorithms/outputs/traceroute_enriched_data.c`
and of the option-processing phase of
`paris-traceroute/paris-traceroute.c`, with theorems settling the
specification claims about them.
-/

set_option maxHeartbeats 1000000

/-- A probe or a reply packet. Only the timestamp matters for the claims
considered here: for an outgoing probe it is the send timestamp, for a
reply it is the receive timestamp. -/
structure probe_t where
  time : Int
deriving DecidableEq

/-- Modelled from the spec: `delay_probe_reply` is not part of the given
sources; the spec states delay = recv − send (receive time of the reply
minus send time of the probe). -/
def delay_probe_reply (probe reply : probe_t) : Int :=
  reply.time - probe.time

/-- `enriched_reply_t`: a (reply, delay) pair, as in
`traceroute_enriched_data.h` usage within the handler. -/
structure enriched_reply_t where
  reply : probe_t
  delay : Int
deriving DecidableEq

/-- A heap of `enriched_reply_t` cells: addresses below `next` may be
live, addresses at or above `next` are never allocated yet. -/
structure Heap where
  mem : Nat → Option enriched_reply_t
  next : Nat

/-- The empty heap. -/
def emptyHeap : Heap :=
  { mem := fun _ => none, next := 0 }

/-- `malloc` of one `enriched_reply_t` cell holding value `v`; returns the
new heap and the fresh address. -/
def heap_alloc (h : Heap) (v : enriched_reply_t) : Heap × Nat :=
  ({ mem := fun b => if b = h.next then some v else h.mem b, next := h.next + 1 }, h.next)

/-- `free` of the cell at address `a`. -/
def heap_free (h : Heap) (a : Nat) : Heap :=
  { mem := fun b => if b = a then none else h.mem b, next := h.next }

/-- `enriched_reply_shallow_copy` (traceroute_enriched_data.c, lines 11-16):
allocates a fresh cell and copies the `reply` and `delay` fields of the
source value into it, returning the new heap and the address of the copy. -/
def enriched_reply_shallow_copy (h : Heap) (r : enriched_reply_t) : Heap × Nat :=
  heap_alloc h { reply := r.reply, delay := r.delay }

/-- The output format enumeration `traceroute_output_format_t`
(TRACEROUTE_OUTPUT_FORMAT_DEFAULT / JSON / XML). -/
inductive TracerouteOutputFormat
  | default
  | json
  | xml
deriving DecidableEq

/-- `traceroute_enriched_user_data_t`: the fields read and written by the
handler. -/
structure traceroute_enriched_user_data_t where
  format : TracerouteOutputFormat
  is_first_result : Bool
deriving DecidableEq

/-- The MDA events dispatched to `traceroute_enriched_handler`:
MDA_PROBE_REPLY carries a (probe, reply) pair, MDA_PROBE_TIMEOUT carries
the probe, MDA_ENDS carries nothing; `other` stands for any further
`mda_event_type_t` value reaching the default branch. -/
inductive MdaEvent
  | probeReply (probe reply : probe_t)
  | probeTimeout (probe : probe_t)
  | ends
  | other (n : Nat)
deriving DecidableEq

/-- One observable output action of the handler.
`jsonSeparator`, `jsonReply`, `jsonStar`, `jsonFooter` and
`unhandledEvent` are written to stdout; `stderrNotImplemented` is the
"Not yet implemented" notice written to stderr. -/
inductive OutputItem
  | jsonSeparator
  | jsonReply (r : enriched_reply_t)
  | jsonStar (p : probe_t)
  | jsonFooter
  | stderrNotImplemented
  | unhandledEvent
deriving DecidableEq

/-- Marks the formatted (record-stream) outputs: the JSON separator,
reply record, star record and array footer. Diagnostics
(`stderrNotImplemented`, `unhandledEvent`) are not formatted output. -/
def OutputItem.isFormatted : OutputItem → Bool
  | OutputItem.jsonSeparator => true
  | OutputItem.jsonReply _ => true
  | OutputItem.jsonStar _ => true
  | OutputItem.jsonFooter => true
  | OutputItem.stderrNotImplemented => false
  | OutputItem.unhandledEvent => false

/-- Result of one invocation of the handler: the updated user data, the
output actions in order, the final heap, the values passed to `malloc`
(in order), and the addresses passed to `free` (in order). -/
structure HandlerResult where
  user_data : traceroute_enriched_user_data_t
  output : List OutputItem
  heap : Heap
  allocated : List enriched_reply_t
  freed : List Nat

/-- `traceroute_enriched_handler` (traceroute_enriched_data.c, lines
35-124). The MDA_PROBE_REPLY case mallocs an `enriched_reply_t`, fills
`reply` and `delay`, dispatches on the format (JSON prints a separator
before every record except the first), then frees the cell. The
MDA_PROBE_TIMEOUT case is analogous without the allocation. The MDA_ENDS
case dispatches on the format and then, lacking a `break` in the C
source, falls through into the default branch, which prints the
"Unhandled event" line. -/
def traceroute_enriched_handler (event : MdaEvent)
    (ud : traceroute_enriched_user_data_t) (h : Heap) : HandlerResult :=
  match event with
  | MdaEvent.probeReply probe reply =>
      let er : enriched_reply_t :=
        { reply := reply, delay := delay_probe_reply probe reply }
      let alloc := heap_alloc h er
      let step :
          traceroute_enriched_user_data_t × List OutputItem :=
        match ud.format with
        | TracerouteOutputFormat.default => (ud, [])
        | TracerouteOutputFormat.json =>
            if ud.is_first_result then
              ({ ud with is_first_result := false }, [OutputItem.jsonReply er])
            else
              (ud, [OutputItem.jsonSeparator, OutputItem.jsonReply er])
        | TracerouteOutputFormat.xml => (ud, [OutputItem.stderrNotImplemented])
      { user_data := step.1, output := step.2,
        heap := heap_free alloc.1 alloc.2,
        allocated := [er], freed := [alloc.2] }
  | MdaEvent.probeTimeout probe =>
      let step :
          traceroute_enriched_user_data_t × List OutputItem :=
        match ud.format with
        | TracerouteOutputFormat.default => (ud, [])
        | TracerouteOutputFormat.json =>
            if ud.is_first_result then
              ({ ud with is_first_result := false }, [OutputItem.jsonStar probe])
            else
              (ud, [OutputItem.jsonSeparator, OutputItem.jsonStar probe])
        | TracerouteOutputFormat.xml => (ud, [OutputItem.stderrNotImplemented])
      { user_data := step.1, output := step.2, heap := h,
        allocated := [], freed := [] }
  | MdaEvent.ends =>
      let endsOut : List OutputItem :=
        match ud.format with
        | TracerouteOutputFormat.xml => [OutputItem.stderrNotImplemented]
        | TracerouteOutputFormat.json => [OutputItem.jsonFooter]
        | TracerouteOutputFormat.default => []
      -- The C switch has no break after the MDA_ENDS case, so control
      -- falls through into the default branch and its printf executes.
      { user_data := ud, output := endsOut ++ [OutputItem.unhandledEvent],
        heap := h, allocated := [], freed := [] }
  | MdaEvent.other _ =>
      { user_data := ud, output := [OutputItem.unhandledEvent],
        heap := h, allocated := [], freed := [] }

/-- Runs the handler over a list of events, threading user data and heap,
and concatenating the outputs. -/
def run_handler :
    List MdaEvent → traceroute_enriched_user_data_t → Heap →
    traceroute_enriched_user_data_t × Heap × List OutputItem
  | [], ud, h => (ud, h, [])
  | e :: es, ud, h =>
      let r := traceroute_enriched_handler e ud h
      let rest := run_handler es r.user_data r.heap
      (rest.1, rest.2.1, r.output ++ rest.2.2)

/-- The events that produce one JSON record each. -/
def isResultEvent : MdaEvent → Bool
  | MdaEvent.probeReply _ _ => true
  | MdaEvent.probeTimeout _ => true
  | _ => false

/-- The JSON record a result event produces: a reply record for
MDA_PROBE_REPLY, a star record for MDA_PROBE_TIMEOUT. (Arbitrary on the
other events, which are excluded by `isResultEvent`.) -/
def jsonRecord : MdaEvent → OutputItem
  | MdaEvent.probeReply probe reply =>
      OutputItem.jsonReply { reply := reply, delay := delay_probe_reply probe reply }
  | MdaEvent.probeTimeout probe => OutputItem.jsonStar probe
  | MdaEvent.ends => OutputItem.jsonFooter
  | MdaEvent.other _ => OutputItem.unhandledEvent

/-- The shape the claim expects of a JSON record stream: the first record
bare, every later record preceded by the separator. -/
def jsonStream : List MdaEvent → List OutputItem
  | [] => []
  | e :: es =>
      jsonRecord e :: List.flatMap es (fun x => [OutputItem.jsonSeparator, jsonRecord x])

/-- `map_find` on the per-hop map: the map is modelled as an association
list from hop key to the identifier of the stored vector. -/
def map_find (map : List (Nat × Nat)) (i : Nat) : Option Nat :=
  (map.find? (fun kv => kv.1 == i)).map (fun kv => kv.2)

/-- `map_probe_free` (traceroute_enriched_data.c, lines 25-33): iterates
`for (i = 1; i < max_ttl; ++i)` — the keys 1, 2, ..., max_ttl − 1 — and
frees the vector stored under each key that is present. `max_ttl` is the
value of `options_traceroute_get_max_ttl()`. Returns the identifiers of
the freed vectors, in iteration order. -/
def map_probe_free (map : List (Nat × Nat)) (max_ttl : Nat) : List Nat :=
  ((List.range max_ttl).drop 1).filterMap (fun i => map_find map i)

/-- The state of the option globals of `paris-traceroute.c` after
`options_parse` returned. The flag fields are written by `opt_store_1`;
`algorithm` and `protocol` are the head of `algorithm_names` /
`protocol_names` after an `opt_store_choice` (modelled from the spec:
the chosen value is placed first, the head stays at its initializer —
"paris-traceroute" and "udp" — when the option is absent);
`dst_port_value` / `dst_port_enabled` are `dst_port[0]` / `dst_port[3]`
written by `opt_store_int_lim_en`, likewise for `src_port`;
`mda_options_set` is `options_mda_get_is_set()`. -/
structure CmdLine where
  is_ipv4 : Bool
  is_ipv6 : Bool
  is_udp : Bool
  is_icmp : Bool
  algorithm : String
  protocol : String
  dst_port_value : Nat
  dst_port_enabled : Bool
  src_port_value : Nat
  src_port_enabled : Bool
  mda_options_set : Bool
deriving DecidableEq

/-- The option-global state produced by a command line with no options:
the initializers of paris-traceroute.c, lines 45-60 (`dst_port` defaults
to 33457 with its enabled flag clear, `src_port` to 33456 with its
enabled flag set, the default algorithm is "paris-traceroute" and the
default protocol "udp"). -/
def default_cmdline : CmdLine :=
  { is_ipv4 := false, is_ipv6 := false, is_udp := false, is_icmp := false,
    algorithm := "paris-traceroute", protocol := "udp",
    dst_port_value := 33457, dst_port_enabled := false,
    src_port_value := 33456, src_port_enabled := true,
    mda_options_set := false }

/-- Effect of the `-U` flag (opt_store_1 on `is_udp`). -/
def with_U (c : CmdLine) : CmdLine := { c with is_udp := true }

/-- Effect of the `-I` flag (opt_store_1 on `is_icmp`). -/
def with_I (c : CmdLine) : CmdLine := { c with is_icmp := true }

/-- Effect of `-d PORT` (opt_store_int_lim_en on `dst_port`): stores the
value and sets the enabled flag `dst_port[3]`. -/
def with_d (v : Nat) (c : CmdLine) : CmdLine :=
  { c with dst_port_value := v, dst_port_enabled := true }

/-- The address families the program accepts (AF_INET / AF_INET6). -/
inductive Family
  | inet
  | inet6
deriving DecidableEq

/-- The error exits taken by `main` before the loop is created; each
corresponds to a `goto ERR_...` with `exit_code` left at EXIT_FAILURE. -/
inductive MainError
  | invalidAlgorithm
  | ipVersionsConflict
  | addressGuessFamily
  | familyNotSupported
  | invalidAddress
  | unknownAlgorithm
deriving DecidableEq

/-- The probe fields and algorithm choice reached at the point where
`main` creates the loop. `protocol` is `none` when the C variable
`protocol_name` was never assigned (the non-ICMP path leaves it
uninitialized); `dst_port` / `src_port` are `none` when the
corresponding `probe_set_fields` call was not executed. -/
structure ProbeConfig where
  ip_protocol : String
  protocol : Option String
  dst_port : Option Nat
  src_port : Option Nat
  algorithm : String
deriving DecidableEq

/-- The option-processing phase of `main` (paris-traceroute.c, lines
197-319), from the mda-option check down to the algorithm selection.
External collaborators are parameters: `guessedFamily` is the result of
`address_guess_family` (`none` when it fails) and `addrOk` the success of
`address_from_string` / `address_to_string`. An `Except.error` models a
`goto` into the error epilogue: the process exits with EXIT_FAILURE
before `pt_loop_create` and before any probe is sent. -/
def main_prepare (c : CmdLine) (guessedFamily : Option Family) (addrOk : Bool) :
    Except MainError ProbeConfig :=
  -- mda options are only allowed together with the mda algorithm
  if c.mda_options_set && !(c.algorithm == "mda") then
    Except.error MainError.invalidAlgorithm
  else
    let famR : Except MainError Family :=
      if c.is_ipv4 && !c.is_ipv6 then Except.ok Family.inet
      else if c.is_ipv6 && !c.is_ipv4 then Except.ok Family.inet6
      else if c.is_ipv4 && c.is_ipv6 then Except.error MainError.ipVersionsConflict
      else
        match guessedFamily with
        | some f => Except.ok f
        | none => Except.error MainError.addressGuessFamily
    match famR with
    | Except.error e => Except.error e
    | Except.ok family =>
      if !addrOk then Except.error MainError.invalidAddress
      else
        let ip_protocol_name : String :=
          match family with
          | Family.inet => "ipv4"
          | Family.inet6 => "ipv6"
        -- is_icmp |= (protocol_names[0] == "icmp"); same for udp
        let is_icmp := c.is_icmp || (c.protocol == "icmp")
        let is_udp := c.is_udp || (c.protocol == "udp")
        let protocol_name : Option String :=
          if is_icmp then
            some (match family with
                  | Family.inet => "icmpv4"
                  | Family.inet6 => "icmpv6")
          else none
        -- if (!is_icmp) set dst_port and src_port from the option values
        let dst0 : Option Nat := if !is_icmp then some c.dst_port_value else none
        let src0 : Option Nat := if !is_icmp then some c.src_port_value else none
        -- if (is_udp && !dst_port[3]) override dst_port with 53
        let dst1 : Option Nat :=
          if is_udp && !c.dst_port_enabled then some 53 else dst0
        if c.algorithm == "paris-traceroute" then
          Except.ok { ip_protocol := ip_protocol_name, protocol := protocol_name,
                      dst_port := dst1, src_port := src0, algorithm := "traceroute" }
        else if (c.algorithm == "mda") || c.mda_options_set then
          Except.ok { ip_protocol := ip_protocol_name, protocol := protocol_name,
                      dst_port := dst1, src_port := src0, algorithm := "mda" }
        else Except.error MainError.unknownAlgorithm

/-- The probe dst_port reached by `main_prepare`: `none` when preparation
errors out, otherwise the dst_port field state of the probe. -/
def prepared_dst_port (c : CmdLine) (gf : Option Family) (ao : Bool) :
    Option (Option Nat) :=
  match main_prepare c gf ao with
  | Except.ok cfg => some cfg.dst_port
  | Except.error _ => none

/-- The probe src_port reached by `main_prepare`, as `prepared_dst_port`. -/
def prepared_src_port (c : CmdLine) (gf : Option Family) (ao : Bool) :
    Option (Option Nat) :=
  match main_prepare c gf ao with
  | Except.ok cfg => some cfg.src_port
  | Except.error _ => none

/-! ## Theorems about the claims -/

/-- C1: the handler is claimed to terminate its event-type switch cleanly
after the MDA_ENDS case, never also executing the default branch. The
code lacks the break: handling MDA_ENDS also prints the
"Unhandled event" line, for every output format. -/
theorem C1_mda_ends_falls_through :
    (traceroute_enriched_handler MdaEvent.ends
        { format := TracerouteOutputFormat.default, is_first_result := true }
        emptyHeap).output = [OutputItem.unhandledEvent]
    ∧ (traceroute_enriched_handler MdaEvent.ends
        { format := TracerouteOutputFormat.json, is_first_result := false }
        emptyHeap).output = [OutputItem.jsonFooter, OutputItem.unhandledEvent] :=
  ⟨rfl, rfl⟩

/-- C2: `map_probe_free` is claimed to free every present entry of the
range up to and including the one at key max_ttl. With max_ttl = 3 and a
map holding one vector under key 3, the iteration `1 <= i < max_ttl`
stops before 3 and frees nothing: the entry at max_ttl is skipped. -/
theorem C2_map_probe_free_skips_max_ttl :
    map_find [(3, 100)] 3 = some 100 ∧ map_probe_free [(3, 100)] 3 = [] := by
  constructor <;> rfl

/-- C3: supplying both -I and -U is claimed to be a fatal option error.
The option-processing phase of `main` accepts the combination: with both
flags set it prepares an ICMP probe and proceeds to the loop instead of
erroring out. -/
theorem C3_icmp_udp_combination_accepted :
    main_prepare (with_I (with_U default_cmdline)) (some Family.inet) true =
      Except.ok ({ ip_protocol := "ipv4", protocol := some "icmpv4",
                   dst_port := some 53, src_port := none,
                   algorithm := "traceroute" } : ProbeConfig) := by
  rfl

/-- C4 counterexample: the claim states dst_port defaults to 33457 when
neither -U nor -d is given. On the no-flag command line the default
protocol is udp, so `is_udp` becomes true and the 53 override fires:
the prepared dst_port is 53, not 33457. -/
theorem C4_default_dst_port_counterexample :
    prepared_dst_port default_cmdline (some Family.inet) true = some (some 53)
    ∧ prepared_dst_port default_cmdline (some Family.inet) true ≠ some (some 33457) := by
  constructor
  · rfl
  · intro hcontra
    simp [prepared_dst_port, main_prepare, default_cmdline] at hcontra

/-- C4 amended: with -U and no -d the prepared dst_port is 53 and
src_port keeps 33456; with -d PORT the user value is kept (with or
without -U); and with neither -U nor -d the dst_port is likewise 53,
since the default protocol udp triggers the same override. -/
theorem C4_udp_ports :
    (prepared_dst_port (with_U default_cmdline) (some Family.inet) true = some (some 53)
      ∧ prepared_src_port (with_U default_cmdline) (some Family.inet) true = some (some 33456))
    ∧ (∀ v : Nat, v ≤ 65535 →
        prepared_dst_port (with_d v (with_U default_cmdline)) (some Family.inet) true
            = some (some v)
        ∧ prepared_dst_port (with_d v default_cmdline) (some Family.inet) true
            = some (some v))
    ∧ prepared_dst_port default_cmdline (some Family.inet) true = some (some 53) := by
  refine ⟨⟨rfl, rfl⟩, ?_, rfl⟩
  intro v _
  constructor <;> rfl

/-- C4 witness: a concrete -d value flows through to the probe. -/
theorem C4_udp_ports_witness :
    prepared_dst_port (with_d 100 (with_U default_cmdline)) (some Family.inet) true
      = some (some 100) :=
  (C4_udp_ports.2.1 100 (by decide)).1

/-- C5: passing MDA-family options while the selected algorithm is not
mda makes `main` error out (EXIT_FAILURE) before the loop is created and
before any probe is sent. -/
theorem C5_mda_options_require_mda :
    ∀ (c : CmdLine) (gf : Option Family) (ao : Bool),
      c.mda_options_set = true → c.algorithm ≠ "mda" →
      main_prepare c gf ao = Except.error MainError.invalidAlgorithm := by
  intro c gf ao h1 h2
  unfold main_prepare
  rw [h1]
  have hb : (c.algorithm == "mda") = false := by
    simp [h2]
  rw [hb]
  rfl

/-- C5 witness: an mda option together with the default algorithm. -/
theorem C5_mda_options_require_mda_witness :
    main_prepare { default_cmdline with mda_options_set := true } none false =
      Except.error MainError.invalidAlgorithm :=
  C5_mda_options_require_mda _ none false rfl (by decide)

/-- On a result event in JSON format the handler clears
`is_first_result` and prints the record, preceded by the separator
exactly when it is not the first. -/
theorem handler_json_result_event (e : MdaEvent) (b : Bool) (h : Heap)
    (he : isResultEvent e = true) :
    (traceroute_enriched_handler e
        { format := TracerouteOutputFormat.json, is_first_result := b } h).user_data
      = { format := TracerouteOutputFormat.json, is_first_result := false }
    ∧ (traceroute_enriched_handler e
        { format := TracerouteOutputFormat.json, is_first_result := b } h).output
      = (if b then [jsonRecord e] else [OutputItem.jsonSeparator, jsonRecord e]) := by
  cases e with
  | probeReply p r => cases b <;> exact ⟨rfl, rfl⟩
  | probeTimeout p => cases b <;> exact ⟨rfl, rfl⟩
  | ends => simp [isResultEvent] at he
  | other n => simp [isResultEvent] at he

/-- Once `is_first_result` is false, every further result event yields a
separator followed by its record. -/
theorem run_handler_json_not_first (events : List MdaEvent) (h : Heap)
    (he : ∀ e ∈ events, isResultEvent e = true) :
    (run_handler events
        { format := TracerouteOutputFormat.json, is_first_result := false } h).2.2
      = List.flatMap events (fun x => [OutputItem.jsonSeparator, jsonRecord x]) := by
  induction events generalizing h with
  | nil => rfl
  | cons e es ih =>
      have hee : isResultEvent e = true := he e (by simp)
      have hes : ∀ x ∈ es, isResultEvent x = true := fun x hx => he x (by simp [hx])
      obtain ⟨hud, hout⟩ := handler_json_result_event e false h hee
      simp only [run_handler, hud, hout, if_neg Bool.false_ne_true, ih _ hes,
        List.flatMap_cons, List.cons_append, List.nil_append]

/-- C6: with the JSON format, a stream of reply/timeout events starting
from a fresh handler state prints one record per event, each record
after the first preceded by the separator ", " and the first bare; and
on MDA_ENDS the array footer is printed. -/
theorem C6_json_record_stream (events : List MdaEvent) (h : Heap)
    (he : ∀ e ∈ events, isResultEvent e = true) :
    (run_handler events
        { format := TracerouteOutputFormat.json, is_first_result := true } h).2.2
      = jsonStream events
    ∧ ∀ (ud : traceroute_enriched_user_data_t) (h2 : Heap),
        ud.format = TracerouteOutputFormat.json →
        OutputItem.jsonFooter ∈ (traceroute_enriched_handler MdaEvent.ends ud h2).output := by
  constructor
  · cases events with
    | nil => rfl
    | cons e es =>
        have hee : isResultEvent e = true := he e (by simp)
        have hes : ∀ x ∈ es, isResultEvent x = true := fun x hx => he x (by simp [hx])
        obtain ⟨hud, hout⟩ := handler_json_result_event e true h hee
        simp only [run_handler, hud, hout, jsonStream,
          run_handler_json_not_first _ _ hes]
        simp
  · intro ud h2 hf
    obtain ⟨fmt, first⟩ := ud
    cases hf
    simp [traceroute_enriched_handler]

/-- C6 witness: three concrete result events followed by MDA_ENDS. -/
theorem C6_json_record_stream_witness :
    (run_handler
        [MdaEvent.probeReply ⟨0⟩ ⟨5⟩, MdaEvent.probeTimeout ⟨7⟩, MdaEvent.probeReply ⟨1⟩ ⟨4⟩]
        { format := TracerouteOutputFormat.json, is_first_result := true } emptyHeap).2.2
      = jsonStream
        [MdaEvent.probeReply ⟨0⟩ ⟨5⟩, MdaEvent.probeTimeout ⟨7⟩, MdaEvent.probeReply ⟨1⟩ ⟨4⟩]
    ∧ OutputItem.jsonFooter ∈
        (traceroute_enriched_handler MdaEvent.ends
          { format := TracerouteOutputFormat.json, is_first_result := false } emptyHeap).output := by
  have h := C6_json_record_stream
    [MdaEvent.probeReply ⟨0⟩ ⟨5⟩, MdaEvent.probeTimeout ⟨7⟩, MdaEvent.probeReply ⟨1⟩ ⟨4⟩]
    emptyHeap (by decide)
  exact ⟨h.1, h.2 _ emptyHeap rfl⟩

/-- C7: on MDA_PROBE_REPLY the handler allocates exactly one
`enriched_reply_t` holding the reply of the event and the delay
(receive time minus send time), the only output that carries an
enriched reply is the JSON record of exactly that value, and the cell is
freed before the handler returns (its address is released and not
reachable in the final heap). -/
theorem C7_enriched_reply_lifetime (probe reply : probe_t)
    (ud : traceroute_enriched_user_data_t) (h : Heap) :
    (traceroute_enriched_handler (MdaEvent.probeReply probe reply) ud h).allocated
      = [{ reply := reply, delay := reply.time - probe.time }]
    ∧ (traceroute_enriched_handler (MdaEvent.probeReply probe reply) ud h).freed = [h.next]
    ∧ (traceroute_enriched_handler (MdaEvent.probeReply probe reply) ud h).heap.mem h.next
      = none
    ∧ (traceroute_enriched_handler (MdaEvent.probeReply probe reply) ud h).output
      = (match ud.format with
         | TracerouteOutputFormat.default => []
         | TracerouteOutputFormat.json =>
             if ud.is_first_result then
               [OutputItem.jsonReply { reply := reply, delay := reply.time - probe.time }]
             else
               [OutputItem.jsonSeparator,
                OutputItem.jsonReply { reply := reply, delay := reply.time - probe.time }]
         | TracerouteOutputFormat.xml => [OutputItem.stderrNotImplemented]) := by
  refine ⟨rfl, rfl, ?_, ?_⟩
  · simp [traceroute_enriched_handler, heap_alloc, heap_free]
  · obtain ⟨fmt, first⟩ := ud
    cases fmt with
    | default => rfl
    | json => cases first <;> rfl
    | xml => rfl

/-- C8: with the XML format the handler emits the stderr notice for
MDA_PROBE_REPLY, MDA_PROBE_TIMEOUT and MDA_ENDS, and none of its output
for those events is formatted (record-stream) output. -/
theorem C8_xml_not_implemented (probe reply : probe_t)
    (ud : traceroute_enriched_user_data_t) (h : Heap)
    (hf : ud.format = TracerouteOutputFormat.xml) :
    (OutputItem.stderrNotImplemented ∈
        (traceroute_enriched_handler (MdaEvent.probeReply probe reply) ud h).output
      ∧ ∀ x ∈ (traceroute_enriched_handler (MdaEvent.probeReply probe reply) ud h).output,
          OutputItem.isFormatted x = false)
    ∧ (OutputItem.stderrNotImplemented ∈
        (traceroute_enriched_handler (MdaEvent.probeTimeout probe) ud h).output
      ∧ ∀ x ∈ (traceroute_enriched_handler (MdaEvent.probeTimeout probe) ud h).output,
          OutputItem.isFormatted x = false)
    ∧ (OutputItem.stderrNotImplemented ∈
        (traceroute_enriched_handler MdaEvent.ends ud h).output
      ∧ ∀ x ∈ (traceroute_enriched_handler MdaEvent.ends ud h).output,
          OutputItem.isFormatted x = false) := by
  obtain ⟨fmt, first⟩ := ud
  cases hf
  refine ⟨⟨?_, ?_⟩, ⟨?_, ?_⟩, ⟨?_, ?_⟩⟩ <;>
    simp [traceroute_enriched_handler, OutputItem.isFormatted]

/-- C8 witness: concrete probes under the XML format. -/
theorem C8_xml_not_implemented_witness :
    OutputItem.stderrNotImplemented ∈
      (traceroute_enriched_handler (MdaEvent.probeReply ⟨0⟩ ⟨1⟩)
        { format := TracerouteOutputFormat.xml, is_first_result := true } emptyHeap).output :=
  (C8_xml_not_implemented ⟨0⟩ ⟨1⟩ _ emptyHeap rfl).1.1

/-- C9: `enriched_reply_shallow_copy` returns a fresh address (not live
in the source heap), the copy holds exactly the reply and delay fields
of the source value, and every other cell of the heap is unchanged. -/
theorem C9_shallow_copy_fresh_and_equal (h : Heap) (r : enriched_reply_t)
    (hwf : ∀ b, h.next ≤ b → h.mem b = none) :
    (enriched_reply_shallow_copy h r).2 = h.next
    ∧ h.mem (enriched_reply_shallow_copy h r).2 = none
    ∧ (enriched_reply_shallow_copy h r).1.mem (enriched_reply_shallow_copy h r).2
      = some { reply := r.reply, delay := r.delay }
    ∧ ∀ b, b ≠ (enriched_reply_shallow_copy h r).2 →
        (enriched_reply_shallow_copy h r).1.mem b = h.mem b := by
  refine ⟨rfl, hwf _ le_rfl, ?_, ?_⟩
  · simp [enriched_reply_shallow_copy, heap_alloc]
  · intro b hb
    have hb2 : b ≠ h.next := hb
    simp only [enriched_reply_shallow_copy, heap_alloc]
    rw [if_neg hb2]

/-- A one-cell heap for the C9 witness. -/
def heap0 : Heap :=
  { mem := fun b => if b = 0 then some { reply := { time := 2 }, delay := 5 } else none,
    next := 1 }

/-- C9 witness: copying the cell value of `heap0` yields address 1
holding the same fields. -/
theorem C9_shallow_copy_witness :
    (enriched_reply_shallow_copy heap0 { reply := { time := 2 }, delay := 5 }).2 = 1
    ∧ (enriched_reply_shallow_copy heap0 { reply := { time := 2 }, delay := 5 }).1.mem 1
      = some { reply := { time := 2 }, delay := 5 } := by
  have h := C9_shallow_copy_fresh_and_equal heap0 { reply := { time := 2 }, delay := 5 }
    (by
      intro b hb
      have hb1 : 1 ≤ b := hb
      simp only [heap0]
      rw [if_neg (by omega)])
  exact ⟨h.1, h.2.2.1⟩

/-- C10: with the default output format the handler produces no output
at all for MDA_PROBE_REPLY and MDA_PROBE_TIMEOUT events. -/
theorem C10_default_format_silent (probe reply : probe_t)
    (ud : traceroute_enriched_user_data_t) (h : Heap)
    (hf : ud.format = TracerouteOutputFormat.default) :
    (traceroute_enriched_handler (MdaEvent.probeReply probe reply) ud h).output = []
    ∧ (traceroute_enriched_handler (MdaEvent.probeTimeout probe) ud h).output = [] := by
  obtain ⟨fmt, first⟩ := ud
  cases hf
  exact ⟨rfl, rfl⟩

/-- C10 witness: a concrete reply event under the default format. -/
theorem C10_default_format_silent_witness :
    (traceroute_enriched_handler (MdaEvent.probeReply ⟨0⟩ ⟨1⟩)
      { format := TracerouteOutputFormat.default, is_first_result := true } emptyHeap).output
      = [] :=
  (C10_default_format_silent ⟨0⟩ ⟨1⟩ _ emptyHeap rfl).1
